import Mathlib

/-!
Shallow embedding of the philips-hue-mcp server (TypeScript) for checking its
natural-language specification.

The embedding covers:
in HueClient (src/src/hue-client.ts): the retry/serialization queue of
HueClient.request (a promise chain with a three-attempt retry loop), and the
request bodies built by the convenience setters (setBrightness, setColor,
setColorTemp, setLightState and the room variants, activateScene);
in the tool layer (src/src/index.ts, second revision): the isConfigured
pre-flight guard shared by every mutating tool handler, the set_light_state
partial-update body, and the three express endpoint handlers for POST, GET and
DELETE on the protocol endpoint;
and the parseColor conversion utility from the revision of index.ts embedded
in the repository (CSS color to native hue/sat/bri).

Asynchronous code is embedded denotationally: a network attempt is a pair of
trace events (start, finish) with an outcome, the retry loop is a recursion
over the remaining attempts, and the promise chain
pending = pending.then(fn, fn) is a fold that runs the handler of each queued
call after the previous promise has settled, with the same handler installed
for the fulfillment and the rejection slot, exactly as in the source.
-/

namespace HueMcp

/-- Outcome of a settled promise: fulfilled with a value or rejected with an
error. Values and errors are drawn from Nat; the queue logic never inspects
them. -/
inductive Outcome where
  | ok : Nat → Outcome
  | err : Nat → Outcome
deriving DecidableEq, Repr

/-- Trace event of the bridge transport: an HTTP exchange of call k, attempt i,
starts, or finishes with an outcome. -/
inductive Event where
  | start : Nat → Nat → Event
  | finish : Nat → Nat → Outcome → Event
deriving DecidableEq, Repr

/-- Call index an event belongs to. -/
def evCall : Event → Nat
  | .start k _ => k
  | .finish k _ _ => k

/-- Attempt index of an event. -/
def evAttempt : Event → Nat
  | .start _ i => i
  | .finish _ i _ => i

/-- Trace of one network attempt: the exchange of call k, attempt i, starts and
then finishes with outcome o. An attempt is atomic on the wire: the single
request/response exchange of https.request in HueClient. -/
def attemptTrace (k i : Nat) (o : Outcome) : List Event :=
  [Event.start k i, Event.finish k i o]

/-- Retry loop of HueClient.request, embedded from the source:
for (let i = 0; i < 3; i++) try return await attempt(); catch (e) if (i === 2) throw e.
The parameter i is the current attempt index and fuel the number of retries
still allowed after it (fuel = 0 corresponds to i === 2, where the error is
rethrown). att gives the outcome of each attempt. -/
def requestLoop (k : Nat) (att : Nat → Outcome) : Nat → Nat → Outcome × List Event
  | i, fuel =>
    match att i, fuel with
    | .ok v, _ => (.ok v, attemptTrace k i (.ok v))
    | .err e, 0 => (.err e, attemptTrace k i (.err e))
    | .err e, fuel + 1 =>
      let rest := requestLoop k att (i + 1) fuel
      (rest.1, attemptTrace k i (.err e) ++ rest.2)

/-- The async fn closure queued by HueClient.request for call k: the retry loop
started at attempt 0 with two retries remaining (three attempts total). -/
def fnRun (k : Nat) (att : Nat → Outcome) : Outcome × List Event :=
  requestLoop k att 0 2

/-- Denotation of p.then(onFulfilled, onRejected) for a settled promise p: the
fulfillment handler runs when p was fulfilled, the rejection handler when p was
rejected, and the resulting promise adopts the outcome of the handler that ran. -/
def thenRun (prev : Outcome) (onFulfilled onRejected : Unit → Outcome × List Event) :
    Outcome × List Event :=
  match prev with
  | .ok _ => onFulfilled ()
  | .err _ => onRejected ()

/-- The pending chain of a HueClient after queueing the calls cs starting at
call index k on a chain whose previous promise settled with prev. Each queued
call performs this.pending = this.pending.then(fn, fn): the same retry closure
is installed as the fulfillment and the rejection continuation, and it runs
once the previous promise has settled; the single-threaded event loop runs the
continuation of call k to completion before the promise of call k settles and
the continuation of call k + 1 is scheduled. -/
def runQueueFrom (k : Nat) (prev : Outcome) : List (Nat → Outcome) → Outcome × List Event
  | [] => (prev, [])
  | c :: cs =>
    let head := thenRun prev (fun _ => fnRun k c) (fun _ => fnRun k c)
    let rest := runQueueFrom (k + 1) head.1 cs
    (rest.1, head.2 ++ rest.2)

/-- Transport trace produced by a fresh HueClient (pending initialized to
Promise.resolve()) after the calls are queued in submission order. -/
def runQueue (calls : List (Nat → Outcome)) : List Event :=
  (runQueueFrom 0 (.ok 0) calls).2

/-- Contribution of one event to the number of open exchanges. -/
def exDelta : Event → Int
  | .start _ _ => 1
  | .finish _ _ _ => -1

/-- Number of exchanges open (started but not finished) after a trace. -/
def openCount (t : List Event) : Int := (t.map exDelta).sum

/-- A trace is serialized when at every moment (after every prefix) at most one
exchange is open, and every exchange that starts also finishes. -/
def Serialized (t : List Event) : Prop :=
  (∀ p q : List Event, t = p ++ q → 0 ≤ openCount p ∧ openCount p ≤ 1) ∧ openCount t = 0

theorem openCount_nil : openCount [] = 0 := rfl

theorem openCount_append (a b : List Event) :
    openCount (a ++ b) = openCount a + openCount b := by
  simp [openCount]

theorem serialized_nil : Serialized [] := by
  constructor
  · intro p q h
    have hp : p = [] := by
      cases p with
      | nil => rfl
      | cons x xs => simp at h
    subst hp
    simp [openCount_nil]
  · rfl

theorem serialized_append {a b : List Event} (ha : Serialized a) (hb : Serialized b) :
    Serialized (a ++ b) := by
  obtain ⟨hpa, hza⟩ := ha
  obtain ⟨hpb, hzb⟩ := hb
  constructor
  · intro p q h
    rcases List.append_eq_append_iff.mp h.symm with ⟨m, hm1, hm2⟩ | ⟨m, hm1, hm2⟩
    · exact hpa p m hm1
    · have := hpb m q hm2
      rw [hm1, openCount_append, hza]
      simpa using this
  · rw [openCount_append, hza, hzb]
    norm_num

theorem serialized_attempt (k i : Nat) (o : Outcome) : Serialized (attemptTrace k i o) := by
  constructor
  · intro p q h
    rcases p with _ | ⟨a, _ | ⟨b, p'⟩⟩
    · simp [openCount_nil]
    · simp only [attemptTrace, List.cons_append, List.nil_append] at h
      injection h with h1 h2
      subst h1
      simp [openCount, exDelta]
    · simp only [attemptTrace, List.cons_append] at h
      injection h with h1 h2
      injection h2 with h3 h4
      obtain ⟨hp', hq⟩ := List.append_eq_nil.mp h4.symm
      subst h1; subst h3; subst hp'
      simp [openCount, exDelta]
  · simp [attemptTrace, openCount, exDelta]

theorem serialized_requestLoop (k : Nat) (att : Nat → Outcome) (i fuel : Nat) :
    Serialized (requestLoop k att i fuel).2 := by
  induction fuel generalizing i with
  | zero =>
    cases h : att i with
    | ok v => simpa [requestLoop, h] using serialized_attempt k i (.ok v)
    | err e => simpa [requestLoop, h] using serialized_attempt k i (.err e)
  | succ fuel ih =>
    cases h : att i with
    | ok v => simpa [requestLoop, h] using serialized_attempt k i (.ok v)
    | err e =>
      have := serialized_append (serialized_attempt k i (.err e)) (ih (i + 1))
      simpa [requestLoop, h] using this

theorem serialized_fnRun (k : Nat) (att : Nat → Outcome) : Serialized (fnRun k att).2 :=
  serialized_requestLoop k att 0 2

theorem runQueueFrom_cons (k : Nat) (prev : Outcome) (c : Nat → Outcome)
    (cs : List (Nat → Outcome)) :
    (runQueueFrom k prev (c :: cs)).2 =
      (fnRun k c).2 ++ (runQueueFrom (k + 1) (fnRun k c).1 cs).2 := by
  cases prev <;> rfl

theorem serialized_runQueueFrom (k : Nat) (prev : Outcome) (cs : List (Nat → Outcome)) :
    Serialized (runQueueFrom k prev cs).2 := by
  induction cs generalizing k prev with
  | nil => exact serialized_nil
  | cons c cs ih =>
    rw [runQueueFrom_cons]
    exact serialized_append (serialized_fnRun k c) (ih (k + 1) _)

theorem evCall_requestLoop (k : Nat) (att : Nat → Outcome) (i fuel : Nat) :
    ∀ e ∈ (requestLoop k att i fuel).2, evCall e = k := by
  induction fuel generalizing i with
  | zero =>
    intro e he
    cases h : att i with
    | ok v =>
      simp [requestLoop, h, attemptTrace] at he
      rcases he with h1 | h1 <;> simp [h1, evCall]
    | err e' =>
      simp [requestLoop, h, attemptTrace] at he
      rcases he with h1 | h1 <;> simp [h1, evCall]
  | succ fuel ih =>
    intro e he
    cases h : att i with
    | ok v =>
      simp [requestLoop, h, attemptTrace] at he
      rcases he with h1 | h1 <;> simp [h1, evCall]
    | err e' =>
      simp [requestLoop, h, attemptTrace] at he
      rcases he with h1 | h1 | h1
      · simp [h1, evCall]
      · simp [h1, evCall]
      · exact ih (i + 1) e h1

theorem evCall_runQueueFrom (k : Nat) (prev : Outcome) (cs : List (Nat → Outcome)) :
    ∀ e ∈ (runQueueFrom k prev cs).2, k ≤ evCall e := by
  induction cs generalizing k prev with
  | nil => intro e he; simp [runQueueFrom] at he
  | cons c cs ih =>
    intro e he
    rw [runQueueFrom_cons] at he
    rcases List.mem_append.mp he with h1 | h1
    · exact le_of_eq (evCall_requestLoop k c 0 2 e h1).symm
    · exact le_trans (Nat.le_succ k) (ih (k + 1) _ e h1)

theorem pairwise_of_const_call {t : List Event} {k : Nat} (h : ∀ e ∈ t, evCall e = k) :
    t.Pairwise (fun a b => evCall a ≤ evCall b) := by
  induction t with
  | nil => simp
  | cons a t ih =>
    refine List.Pairwise.cons ?_ (ih fun e he => h e (List.mem_cons_of_mem a he))
    intro b hb
    rw [h a (List.mem_cons_self a t), h b (List.mem_cons_of_mem a hb)]

theorem pairwise_runQueueFrom (k : Nat) (prev : Outcome) (cs : List (Nat → Outcome)) :
    (runQueueFrom k prev cs).2.Pairwise (fun a b => evCall a ≤ evCall b) := by
  induction cs generalizing k prev with
  | nil => simp [runQueueFrom]
  | cons c cs ih =>
    rw [runQueueFrom_cons]
    refine List.pairwise_append.mpr
      ⟨pairwise_of_const_call (evCall_requestLoop k c 0 2), ih (k + 1) _, ?_⟩
    intro a ha b hb
    have h1 := evCall_requestLoop k c 0 2 a ha
    have h2 := evCall_runQueueFrom (k + 1) _ cs b hb
    omega

/-- Claim C1: for every bridge client instance and every set of concurrently
submitted calls, at most one HTTP exchange with the bridge is in flight at a
time: the transport trace of the pending-operation queue is serialized (after
every prefix at most one exchange is open and every exchange closes), and the
events occur in submission order (call indices are nondecreasing along the
trace), so exchanges never interleave and execute in the order the calls were
queued. -/
theorem request_queue_serialized_fifo (calls : List (Nat → Outcome)) :
    Serialized (runQueue calls) ∧
      (runQueue calls).Pairwise (fun a b => evCall a ≤ evCall b) :=
  ⟨serialized_runQueueFrom 0 (.ok 0) calls, pairwise_runQueueFrom 0 (.ok 0) calls⟩

/-- Claim C2: every queued bridge call attempts the network exchange up to
three times: when the first two attempts fail, a successful third attempt
returns the success result to the caller, three failed attempts propagate the
third failure as the error, and no attempt beyond the third ever starts. -/
theorem retry_three_attempts (k : Nat) (att : Nat → Outcome) (e0 e1 : Nat)
    (h0 : att 0 = .err e0) (h1 : att 1 = .err e1) :
    (∀ v, att 2 = .ok v → (fnRun k att).1 = .ok v) ∧
    (∀ e2, att 2 = .err e2 → (fnRun k att).1 = .err e2) ∧
    (∀ e ∈ (fnRun k att).2, evAttempt e < 3) := by
  refine ⟨?_, ?_, ?_⟩
  · intro v hv
    simp [fnRun, requestLoop, h0, h1, hv]
  · intro e2 hv
    simp [fnRun, requestLoop, h0, h1, hv]
  · intro e he
    cases h2 : att 2 with
    | ok v =>
      simp [fnRun, requestLoop, h0, h1, h2, attemptTrace] at he
      rcases he with h | h | h | h | h | h <;> simp [h, evAttempt]
    | err e2 =>
      simp [fnRun, requestLoop, h0, h1, h2, attemptTrace] at he
      rcases he with h | h | h | h | h | h <;> simp [h, evAttempt]

/-- Attempt schedule whose first two attempts fail and whose third succeeds. -/
def attThirdOk : Nat → Outcome := fun n =>
  if n = 0 then .err 7 else if n = 1 then .err 8 else .ok 5

theorem retry_three_attempts_witness : (fnRun 0 attThirdOk).1 = .ok 5 :=
  (retry_three_attempts 0 attThirdOk 7 8 rfl rfl).1 5 rfl

theorem runQueueFrom_trace_indep (cs : List (Nat → Outcome)) (k : Nat)
    (prev prev' : Outcome) :
    (runQueueFrom k prev cs).2 = (runQueueFrom k prev' cs).2 := by
  cases cs with
  | nil => rfl
  | cons c cs => rw [runQueueFrom_cons, runQueueFrom_cons]

theorem requestLoop_trace_head (k : Nat) (att : Nat → Outcome) (i fuel : Nat) :
    ∃ t, (requestLoop k att i fuel).2 = Event.start k i :: t := by
  cases h : att i with
  | ok v =>
    refine ⟨[Event.finish k i (.ok v)], ?_⟩
    cases fuel <;> simp [requestLoop, h, attemptTrace]
  | err e =>
    cases fuel with
    | zero => exact ⟨[Event.finish k i (.err e)], by simp [requestLoop, h, attemptTrace]⟩
    | succ f =>
      exact ⟨Event.finish k i (.err e) :: (requestLoop k att (i + 1) f).2,
        by simp [requestLoop, h, attemptTrace]⟩

theorem start_mem_runQueueFrom (cs : List (Nat → Outcome)) (k : Nat) (prev : Outcome)
    (i : Nat) (hi : i < cs.length) :
    Event.start (k + i) 0 ∈ (runQueueFrom k prev cs).2 := by
  induction cs generalizing k prev i with
  | nil => simp at hi
  | cons c cs ih =>
    rw [runQueueFrom_cons]
    cases i with
    | zero =>
      apply List.mem_append_left
      obtain ⟨t, ht⟩ := requestLoop_trace_head k c 0 2
      have ht' : (fnRun k c).2 = Event.start k 0 :: t := ht
      rw [ht']
      exact List.mem_cons_self _ _
    | succ j =>
      apply List.mem_append_right
      have hmem := ih (k + 1) (fnRun k c).1 j (by simpa using Nat.lt_of_succ_lt_succ hi)
      have heq : k + 1 + j = k + (j + 1) := by omega
      rw [heq] at hmem
      exact hmem

/-- Claim C9: for every pair of calls queued on the same bridge client, the
later call executes after the earlier call settles regardless of success or
failure of the earlier one: the trace of the pending chain does not depend on
the outcome the chain settled with before the calls were queued (the same
closure is installed as the fulfillment and the rejection continuation), and
every queued call, at any position, begins its first attempt, even when every
earlier call exhausted its retries and rejected. -/
theorem queue_survives_failures (calls : List (Nat → Outcome)) (i : Nat)
    (hi : i < calls.length) :
    (∀ k : Nat, ∀ prev prev' : Outcome,
        (runQueueFrom k prev calls).2 = (runQueueFrom k prev' calls).2) ∧
    Event.start i 0 ∈ runQueue calls := by
  refine ⟨fun k prev prev' => runQueueFrom_trace_indep calls k prev prev', ?_⟩
  have := start_mem_runQueueFrom calls 0 (.ok 0) i hi
  simpa [runQueue] using this

/-- Attempt schedule in which every attempt fails. -/
def attAllFail : Nat → Outcome := fun _ => .err 9

theorem queue_survives_failures_witness :
    Event.start 1 0 ∈ runQueue [attAllFail, attAllFail] :=
  (queue_survives_failures [attAllFail, attAllFail] 1 (by simp)).2

/-- JSON value as it appears in the request bodies this server sends. Numbers
are rationals: every numeric value the handlers build is produced by exact
arithmetic on validated inputs. -/
inductive JsonVal where
  | bool : Bool → JsonVal
  | num : ℚ → JsonVal
  | str : String → JsonVal
deriving DecidableEq

/-- Serialized JSON object body: the key/value pairs JSON.stringify emits, in
property order. -/
abbrev Body := List (String × JsonVal)

/-- One optional object property under JSON.stringify: a property whose value
is undefined is omitted from the serialized body. -/
def jsonField (k : String) (v : Option JsonVal) : Body :=
  match v with
  | none => []
  | some x => [(k, x)]

/-- HTTP request against the bridge REST API. -/
structure Request where
  method : String
  path : String
  body : Body
deriving DecidableEq

/-- Body built by HueClient.setBrightness: on true and bri clamped by
Math.min(254, Math.max(1, bri)). -/
def setBrightnessBody (bri : ℚ) : Body :=
  [("on", .bool true), ("bri", .num (min 254 (max 1 bri)))]

/-- Body built by HueClient.setColor: on true, hue, sat and the optional bri
argument (the tool handlers call setColor without it, so JSON.stringify drops
the property). -/
def setColorBody (hue sat : ℚ) (bri : Option ℚ) : Body :=
  [("on", .bool true), ("hue", .num hue), ("sat", .num sat)] ++ jsonField "bri" (bri.map .num)

/-- Body built by HueClient.setColorTemp: on true and ct clamped by
Math.min(500, Math.max(153, ct)). -/
def setColorTempBody (ct : ℚ) : Body :=
  [("on", .bool true), ("ct", .num (min 500 (max 153 ct)))]

/-- Body built by HueClient.setRoomBrightness. -/
def setRoomBrightnessBody (bri : ℚ) : Body :=
  [("on", .bool true), ("bri", .num (min 254 (max 1 bri)))]

/-- Body built by HueClient.setRoomColor. -/
def setRoomColorBody (hue sat : ℚ) (bri : Option ℚ) : Body :=
  [("on", .bool true), ("hue", .num hue), ("sat", .num sat)] ++ jsonField "bri" (bri.map .num)

/-- Body built by HueClient.setRoomColorTemp. -/
def setRoomColorTempBody (ct : ℚ) : Body :=
  [("on", .bool true), ("ct", .num (min 500 (max 153 ct)))]

/-- Request sent by HueClient.setLightState. -/
def setLightStateReq (id : String) (b : Body) : Request :=
  ⟨"PUT", "/lights/" ++ id ++ "/state", b⟩

/-- Request sent by HueClient.setRoomState. -/
def setRoomStateReq (id : String) (b : Body) : Request :=
  ⟨"PUT", "/groups/" ++ id ++ "/action", b⟩

def setBrightness (id : String) (bri : ℚ) : Request :=
  setLightStateReq id (setBrightnessBody bri)

def setColor (id : String) (hue sat : ℚ) (bri : Option ℚ) : Request :=
  setLightStateReq id (setColorBody hue sat bri)

def setColorTemp (id : String) (ct : ℚ) : Request :=
  setLightStateReq id (setColorTempBody ct)

def turnLightOn (id : String) : Request := setLightStateReq id [("on", .bool true)]

def turnLightOff (id : String) : Request := setLightStateReq id [("on", .bool false)]

def setRoomBrightness (id : String) (bri : ℚ) : Request :=
  setRoomStateReq id (setRoomBrightnessBody bri)

def setRoomColor (id : String) (hue sat : ℚ) (bri : Option ℚ) : Request :=
  setRoomStateReq id (setRoomColorBody hue sat bri)

def setRoomColorTemp (id : String) (ct : ℚ) : Request :=
  setRoomStateReq id (setRoomColorTempBody ct)

def turnRoomOn (id : String) : Request := setRoomStateReq id [("on", .bool true)]

def turnRoomOff (id : String) : Request := setRoomStateReq id [("on", .bool false)]

/-- Claim C4 as stated is false on this code: a requested brightness of 0 is
not coerced to off. The body sent carries on true and brightness 1: the light
is turned on at minimum brightness. -/
theorem brightness_zero_counterexample :
    (setBrightnessBody 0).lookup "on" = some (.bool true) ∧
    (setBrightnessBody 0).lookup "bri" = some (.num 1) ∧
    ¬ (setBrightnessBody 0).lookup "on" = some (.bool false) ∧
    (setRoomBrightnessBody 0).lookup "on" = some (.bool true) := by
  have hb : min (254 : ℚ) (max 1 0) = 1 := by norm_num
  refine ⟨?_, ?_, ?_, ?_⟩ <;>
    simp [setBrightnessBody, setRoomBrightnessBody, List.lookup, hb]

/-- Claim C4 (amended): for every brightness-setting operation (setBrightness,
setRoomBrightness) the brightness value sent to the bridge is clamped into
[1, 254], and a requested brightness of 0 is coerced to brightness 1 sent
together with on true (the light or room is set to minimum brightness and
turned on, never sent brightness 0 and never turned off). -/
theorem brightness_always_clamped (id : String) (bri : ℚ) :
    (∃ q : ℚ, (setBrightness id bri).body.lookup "bri" = some (.num q) ∧ 1 ≤ q ∧ q ≤ 254) ∧
    (setBrightness id bri).body.lookup "on" = some (.bool true) ∧
    (∃ q : ℚ, (setRoomBrightness id bri).body.lookup "bri" = some (.num q) ∧ 1 ≤ q ∧ q ≤ 254) ∧
    (setRoomBrightness id bri).body.lookup "on" = some (.bool true) ∧
    (setBrightnessBody 0).lookup "bri" = some (.num 1) ∧
    (setRoomBrightnessBody 0).lookup "bri" = some (.num 1) := by
  have h1 : (1 : ℚ) ≤ min 254 (max 1 bri) :=
    le_min (by norm_num) (le_max_left 1 bri)
  have h2 : min (254 : ℚ) (max 1 bri) ≤ 254 := min_le_left 254 _
  have hb : min (254 : ℚ) (max 1 0) = 1 := by norm_num
  refine ⟨⟨min 254 (max 1 bri), ?_, h1, h2⟩, ?_, ⟨min 254 (max 1 bri), ?_, h1, h2⟩, ?_, ?_, ?_⟩ <;>
    simp [setBrightness, setRoomBrightness, setLightStateReq, setRoomStateReq,
      setBrightnessBody, setRoomBrightnessBody, List.lookup, hb]

/-- Bridge-side state of one light, for the fields these bodies can touch. -/
structure LightState where
  isOn : Bool
  bri : ℚ
  hue : ℚ
  sat : ℚ
  ct : ℚ
deriving DecidableEq

/-- Effect of one body property on a light, per the bridge REST semantics of
PUT state updates: the named field is overwritten, everything else is kept. -/
def applyField (st : LightState) (kv : String × JsonVal) : LightState :=
  if kv.1 = "on" then match kv.2 with | .bool b => { st with isOn := b } | _ => st
  else if kv.1 = "bri" then match kv.2 with | .num q => { st with bri := q } | _ => st
  else if kv.1 = "hue" then match kv.2 with | .num q => { st with hue := q } | _ => st
  else if kv.1 = "sat" then match kv.2 with | .num q => { st with sat := q } | _ => st
  else if kv.1 = "ct" then match kv.2 with | .num q => { st with ct := q } | _ => st
  else st

/-- Effect of a whole body on a light. -/
def applyBody (st : LightState) (b : Body) : LightState := b.foldl applyField st

/-- Claim C10: every convenience state-setting operation on the bridge client
(setBrightness, setColor, setColorTemp and their room variants) carries on true
in its body besides the named field, so applying any of these bodies to a
light in any state, in particular one that is off, leaves it on. -/
theorem convenience_setters_turn_on (bri hue sat ct : ℚ) (briOpt : Option ℚ)
    (st : LightState) :
    (setBrightnessBody bri).lookup "on" = some (.bool true) ∧
    (setColorBody hue sat briOpt).lookup "on" = some (.bool true) ∧
    (setColorTempBody ct).lookup "on" = some (.bool true) ∧
    (setRoomBrightnessBody bri).lookup "on" = some (.bool true) ∧
    (setRoomColorBody hue sat briOpt).lookup "on" = some (.bool true) ∧
    (setRoomColorTempBody ct).lookup "on" = some (.bool true) ∧
    (applyBody st (setBrightnessBody bri)).isOn = true ∧
    (applyBody st (setColorBody hue sat briOpt)).isOn = true ∧
    (applyBody st (setColorTempBody ct)).isOn = true ∧
    (applyBody st (setRoomBrightnessBody bri)).isOn = true ∧
    (applyBody st (setRoomColorBody hue sat briOpt)).isOn = true ∧
    (applyBody st (setRoomColorTempBody ct)).isOn = true := by
  cases briOpt <;>
    refine ⟨?_, ?_, ?_, ?_, ?_, ?_, ?_, ?_, ?_, ?_, ?_, ?_⟩ <;>
      simp [setBrightnessBody, setColorBody, setColorTempBody, setRoomBrightnessBody,
        setRoomColorBody, setRoomColorTempBody, jsonField, List.lookup,
        applyBody, applyField]

/-- Arguments of the set_light_state tool, all optional. The isOn field embeds
the on argument of the tool (on is reserved notation in Lean). -/
structure LightStateArgs where
  isOn : Option Bool
  brightness : Option ℚ
  hue : Option ℚ
  saturation : Option ℚ
  colorTemp : Option ℚ
  transitionTime : Option ℚ
deriving DecidableEq

/-- Body the set_light_state handler passes to HueClient.setLightState, after
JSON.stringify: the object literal names six properties, and every property
whose argument was not provided has value undefined and is dropped from the
serialized body. -/
def setLightStateToolBody (a : LightStateArgs) : Body :=
  jsonField "on" (a.isOn.map .bool) ++ jsonField "bri" (a.brightness.map .num) ++
  jsonField "hue" (a.hue.map .num) ++ jsonField "sat" (a.saturation.map .num) ++
  jsonField "ct" (a.colorTemp.map .num) ++ jsonField "transitiontime" (a.transitionTime.map .num)

/-- PUT request issued by the set_light_state tool handler. -/
def setLightStateToolReq (id : String) (a : LightStateArgs) : Request :=
  setLightStateReq id (setLightStateToolBody a)

/-- Claim C7: for every call of the set_light_state handler, the PUT body sent
to the bridge contains exactly the fields the caller provided: looking up each
of the six wire properties yields precisely the provided value (none when the
caller omitted the argument), and no property outside the six ever occurs in
the body. -/
theorem set_light_state_partial (id : String) (a : LightStateArgs) :
    (setLightStateToolReq id a).body.lookup "on" = a.isOn.map .bool ∧
    (setLightStateToolReq id a).body.lookup "bri" = a.brightness.map .num ∧
    (setLightStateToolReq id a).body.lookup "hue" = a.hue.map .num ∧
    (setLightStateToolReq id a).body.lookup "sat" = a.saturation.map .num ∧
    (setLightStateToolReq id a).body.lookup "ct" = a.colorTemp.map .num ∧
    (setLightStateToolReq id a).body.lookup "transitiontime" = a.transitionTime.map .num ∧
    (∀ kv ∈ (setLightStateToolReq id a).body,
      kv.1 = "on" ∨ kv.1 = "bri" ∨ kv.1 = "hue" ∨ kv.1 = "sat" ∨ kv.1 = "ct" ∨
        kv.1 = "transitiontime") := by
  obtain ⟨o, b, h, s, c, t⟩ := a
  cases o <;> cases b <;> cases h <;> cases s <;> cases c <;> cases t <;>
    refine ⟨?_, ?_, ?_, ?_, ?_, ?_, ?_⟩ <;>
      simp [setLightStateToolReq, setLightStateReq, setLightStateToolBody, jsonField,
        List.lookup]

/-- Scene record as projected by HueClient.getScenes. -/
structure HueScene where
  id : String
  name : String
  group : Option String
  sceneType : String
deriving DecidableEq

/-- JS truthiness of an optional string: undefined and the empty string are
falsy. -/
def optTruthy : Option String → Bool
  | none => false
  | some s => !(s == "")

/-- JS expression x || d for an optional string: d when x is undefined or
empty, x otherwise. -/
def jsOrDefault (x : Option String) (d : String) : String :=
  match x with
  | none => d
  | some s => if s = "" then d else s

/-- Group the PUT of HueClient.activateScene targets: the explicit groupId when
truthy, otherwise the group recorded on the scene found in the scene listing
(scene?.group), with the pseudo-group 0 as default. -/
def activateSceneTarget (scenes : List HueScene) (sceneId : String)
    (groupId : Option String) : String :=
  if optTruthy groupId then groupId.getD ""
  else jsOrDefault ((scenes.find? (fun s => s.id == sceneId)).bind (fun s => s.group)) "0"

/-- The PUT request issued by HueClient.activateScene. -/
def activateScene (scenes : List HueScene) (sceneId : String)
    (groupId : Option String) : Request :=
  ⟨"PUT", "/groups/" ++ activateSceneTarget scenes sceneId groupId ++ "/action",
    [("scene", .str sceneId)]⟩

/-- Claim C5: activateScene(sceneId, groupId?) resolves to exactly one target
group: the given groupId when one is given (nonempty, per JS truthiness);
otherwise the recorded group of the scene when the scene is listed and has a
nonempty group; otherwise the all-lights pseudo-group 0, both when the scene
has no recorded group and when the scene is not listed at all. The PUT is
addressed to exactly that group. -/
theorem activate_scene_resolves_one_group (scenes : List HueScene) (sceneId : String)
    (groupId : Option String) :
    (∀ g, groupId = some g → g ≠ "" →
      activateSceneTarget scenes sceneId groupId = g) ∧
    (optTruthy groupId = false →
      (∀ sc, scenes.find? (fun s => s.id == sceneId) = some sc →
        ∀ gr, sc.group = some gr → gr ≠ "" →
          activateSceneTarget scenes sceneId groupId = gr) ∧
      (∀ sc, scenes.find? (fun s => s.id == sceneId) = some sc →
        (sc.group = none ∨ sc.group = some "") →
          activateSceneTarget scenes sceneId groupId = "0") ∧
      (scenes.find? (fun s => s.id == sceneId) = none →
        activateSceneTarget scenes sceneId groupId = "0")) ∧
    (activateScene scenes sceneId groupId).path =
      "/groups/" ++ activateSceneTarget scenes sceneId groupId ++ "/action" := by
  refine ⟨?_, ?_, rfl⟩
  · intro g hg hne
    subst hg
    simp [activateSceneTarget, optTruthy, hne]
  · intro hf
    refine ⟨?_, ?_, ?_⟩
    · intro sc hsc gr hgr hne
      simp [activateSceneTarget, hf, hsc, hgr, jsOrDefault, hne]
    · intro sc hsc hor
      rcases hor with hh | hh <;> simp [activateSceneTarget, hf, hsc, hh, jsOrDefault]
    · intro hnone
      simp [activateSceneTarget, hf, hnone, jsOrDefault]

/-- Concrete scene listing for the witness: one scene with a recorded group. -/
def sceneW : HueScene := ⟨"s1", "Evening", some "7", "LightScene"⟩

theorem activate_scene_resolves_one_group_witness :
    activateSceneTarget [sceneW] "s1" none = "7" :=
  ((activate_scene_resolves_one_group [sceneW] "s1" none).2.1 rfl).1
    sceneW (by simp [sceneW]) "7" rfl (by simp)

/-- Process configuration as loaded at startup by the second revision of
index.ts: HUE_BRIDGE_IP and HUE_USERNAME default to the empty string when the
environment does not set them. -/
structure Config where
  bridgeIp : String
  username : String
deriving DecidableEq

/-- isConfigured from index.ts: JS truthiness of HUE_BRIDGE_IP && HUE_USERNAME,
true exactly when both strings are nonempty. -/
def isConfigured (c : Config) : Bool := !(c.bridgeIp == "") && !(c.username == "")

/-- Content a tool handler returns: its text and the isError flag. -/
structure ToolResult where
  text : String
  isError : Bool
deriving DecidableEq

/-- Helper ok of index.ts: a plain text result. -/
def okRes (t : String) : ToolResult := ⟨t, false⟩

/-- Helper err of index.ts: an error result carrying the exception message. -/
def errRes (m : String) : ToolResult := ⟨"Error: " ++ m, true⟩

/-- Text of the notConfigured informational result. -/
def notConfiguredText : String :=
  "Not configured. Set HUE_BRIDGE_IP and HUE_USERNAME environment variables, or use discover_bridges and create_auth_token tools."

/-- The notConfigured helper of index.ts: an informational, non-error result. -/
def notConfigured : ToolResult := okRes notConfiguredText

/-- Shape shared by every light/room-mutating tool handler in index.ts:
if not isConfigured, return notConfigured before any bridge call; otherwise
issue the bridge request and wrap its outcome with ok or err. The result is
paired with the list of bridge requests the handler issued. -/
def mutatingTool (c : Config) (req : Request) (outcome : Except String Unit)
    (okMsg : String) : ToolResult × List Request :=
  if !(isConfigured c) then (notConfigured, [])
  else
    match outcome with
    | .ok _ => (okRes okMsg, [req])
    | .error m => (errRes m, [req])

def turn_light_on_tool (c : Config) (lightId : String) (outcome : Except String Unit) :
    ToolResult × List Request :=
  mutatingTool c (turnLightOn lightId) outcome ("Light " ++ lightId ++ " turned on")

def turn_light_off_tool (c : Config) (lightId : String) (outcome : Except String Unit) :
    ToolResult × List Request :=
  mutatingTool c (turnLightOff lightId) outcome ("Light " ++ lightId ++ " turned off")

/-- set_light_brightness handler; JS number formatting in the success message
is abstracted by toString. -/
def set_light_brightness_tool (c : Config) (lightId : String) (bri : ℚ)
    (outcome : Except String Unit) : ToolResult × List Request :=
  mutatingTool c (setBrightness lightId bri) outcome
    ("Light " ++ lightId ++ " brightness set to " ++ toString bri)

/-- set_light_color handler: the tool passes hue and saturation and no bri
argument to HueClient.setColor. -/
def set_light_color_tool (c : Config) (lightId : String) (hue sat : ℚ)
    (outcome : Except String Unit) : ToolResult × List Request :=
  mutatingTool c (setColor lightId hue sat none) outcome
    ("Light " ++ lightId ++ " color set to hue=" ++ toString hue ++ ", saturation=" ++
      toString sat)

def set_light_color_temp_tool (c : Config) (lightId : String) (ct : ℚ)
    (outcome : Except String Unit) : ToolResult × List Request :=
  mutatingTool c (setColorTemp lightId ct) outcome
    ("Light " ++ lightId ++ " color temperature set to " ++ toString ct ++ " mireds")

def set_light_state_tool (c : Config) (lightId : String) (a : LightStateArgs)
    (outcome : Except String Unit) : ToolResult × List Request :=
  mutatingTool c (setLightStateToolReq lightId a) outcome
    ("Light " ++ lightId ++ " state updated")

def turn_room_on_tool (c : Config) (roomId : String) (outcome : Except String Unit) :
    ToolResult × List Request :=
  mutatingTool c (turnRoomOn roomId) outcome ("Room " ++ roomId ++ " turned on")

def turn_room_off_tool (c : Config) (roomId : String) (outcome : Except String Unit) :
    ToolResult × List Request :=
  mutatingTool c (turnRoomOff roomId) outcome ("Room " ++ roomId ++ " turned off")

def set_room_brightness_tool (c : Config) (roomId : String) (bri : ℚ)
    (outcome : Except String Unit) : ToolResult × List Request :=
  mutatingTool c (setRoomBrightness roomId bri) outcome
    ("Room " ++ roomId ++ " brightness set to " ++ toString bri)

def set_room_color_tool (c : Config) (roomId : String) (hue sat : ℚ)
    (outcome : Except String Unit) : ToolResult × List Request :=
  mutatingTool c (setRoomColor roomId hue sat none) outcome
    ("Room " ++ roomId ++ " color set to hue=" ++ toString hue ++ ", saturation=" ++
      toString sat)

def set_room_color_temp_tool (c : Config) (roomId : String) (ct : ℚ)
    (outcome : Except String Unit) : ToolResult × List Request :=
  mutatingTool c (setRoomColorTemp roomId ct) outcome
    ("Room " ++ roomId ++ " color temperature set to " ++ toString ct ++ " mireds")

/-- Body the set_room_state handler passes to HueClient.setRoomState: the same
six optional properties as set_light_state, serialized the same way. -/
def setRoomStateToolBody (a : LightStateArgs) : Body :=
  jsonField "on" (a.isOn.map .bool) ++ jsonField "bri" (a.brightness.map .num) ++
  jsonField "hue" (a.hue.map .num) ++ jsonField "sat" (a.saturation.map .num) ++
  jsonField "ct" (a.colorTemp.map .num) ++ jsonField "transitiontime" (a.transitionTime.map .num)

def set_room_state_tool (c : Config) (roomId : String) (a : LightStateArgs)
    (outcome : Except String Unit) : ToolResult × List Request :=
  mutatingTool c (setRoomStateReq roomId (setRoomStateToolBody a)) outcome
    ("Room " ++ roomId ++ " state updated")

def activate_scene_tool (c : Config) (scenes : List HueScene) (sceneId : String)
    (groupId : Option String) (outcome : Except String Unit) : ToolResult × List Request :=
  mutatingTool c (activateScene scenes sceneId groupId) outcome
    ("Scene " ++ sceneId ++ " activated" ++
      (if optTruthy groupId then " in group " ++ groupId.getD "" else ""))

def turn_all_lights_on_tool (c : Config) (outcome : Except String Unit) :
    ToolResult × List Request :=
  mutatingTool c (setRoomStateReq "0" [("on", .bool true)]) outcome "All lights turned on"

def turn_all_lights_off_tool (c : Config) (outcome : Except String Unit) :
    ToolResult × List Request :=
  mutatingTool c (setRoomStateReq "0" [("on", .bool false)]) outcome "All lights turned off"

/-- Claim C6: for every light/room-mutating tool, when the bridge address or
the credential is empty the handler short-circuits before any bridge call: it
issues no bridge request and returns the notConfigured informational result,
whose isError flag is not set, whatever the arguments and whatever the bridge
outcome would have been. -/
theorem not_configured_short_circuit (c : Config)
    (h : c.bridgeIp = "" ∨ c.username = "") :
    (∀ lid out, turn_light_on_tool c lid out = (notConfigured, [])) ∧
    (∀ lid out, turn_light_off_tool c lid out = (notConfigured, [])) ∧
    (∀ lid bri out, set_light_brightness_tool c lid bri out = (notConfigured, [])) ∧
    (∀ lid hue sat out, set_light_color_tool c lid hue sat out = (notConfigured, [])) ∧
    (∀ lid ct out, set_light_color_temp_tool c lid ct out = (notConfigured, [])) ∧
    (∀ lid a out, set_light_state_tool c lid a out = (notConfigured, [])) ∧
    (∀ rid out, turn_room_on_tool c rid out = (notConfigured, [])) ∧
    (∀ rid out, turn_room_off_tool c rid out = (notConfigured, [])) ∧
    (∀ rid bri out, set_room_brightness_tool c rid bri out = (notConfigured, [])) ∧
    (∀ rid hue sat out, set_room_color_tool c rid hue sat out = (notConfigured, [])) ∧
    (∀ rid ct out, set_room_color_temp_tool c rid ct out = (notConfigured, [])) ∧
    (∀ rid a out, set_room_state_tool c rid a out = (notConfigured, [])) ∧
    (∀ scenes sid gid out, activate_scene_tool c scenes sid gid out = (notConfigured, [])) ∧
    (∀ out, turn_all_lights_on_tool c out = (notConfigured, [])) ∧
    (∀ out, turn_all_lights_off_tool c out = (notConfigured, [])) ∧
    notConfigured.isError = false := by
  have hc : isConfigured c = false := by
    rcases h with h | h <;> simp [isConfigured, h]
  refine ⟨?_, ?_, ?_, ?_, ?_, ?_, ?_, ?_, ?_, ?_, ?_, ?_, ?_, ?_, ?_, rfl⟩ <;>
    intros <;>
      simp [turn_light_on_tool, turn_light_off_tool, set_light_brightness_tool,
        set_light_color_tool, set_light_color_temp_tool, set_light_state_tool,
        turn_room_on_tool, turn_room_off_tool, set_room_brightness_tool,
        set_room_color_tool, set_room_color_temp_tool, set_room_state_tool,
        activate_scene_tool, turn_all_lights_on_tool, turn_all_lights_off_tool,
        mutatingTool, hc]

theorem not_configured_short_circuit_witness :
    turn_light_on_tool ⟨"", "token"⟩ "1" (.ok ()) = (notConfigured, []) :=
  (not_configured_short_circuit ⟨"", "token"⟩ (Or.inl rfl)).1 "1" (.ok ())

/-- Body of an HTTP rejection response on the /mcp endpoint. -/
inductive RespBody where
  | jsonRpcError : Int → String → RespBody
  | text : String → RespBody
deriving DecidableEq

/-- Response of an /mcp endpoint handler: the request is either forwarded to
the transport instance of a session, or rejected with a status and a body.
The jsonRpcError body stands for the envelope with jsonrpc 2.0, an error
object with the given code and message, and id null. -/
inductive McpResponse where
  | forwarded : McpResponse
  | rejected : Nat → RespBody → McpResponse
deriving DecidableEq

/-- POST /mcp handler of index.ts (second revision): reuse the transport of a
known session; create a session for an initialize request with no session id;
otherwise reject with 400 and the JSON-RPC envelope with code -32000. -/
def postMcp (sessions : List String) (sessionId : Option String) (isInit : Bool) :
    McpResponse :=
  if optTruthy sessionId && sessions.contains (sessionId.getD "") then .forwarded
  else if !optTruthy sessionId && isInit then .forwarded
  else .rejected 400 (.jsonRpcError (-32000) "Bad Request: No valid session ID")

/-- GET /mcp handler: reject with 400 and a plain-text body when the session
id is missing or unknown, else forward. -/
def getMcp (sessions : List String) (sessionId : Option String) : McpResponse :=
  if !optTruthy sessionId || !sessions.contains (sessionId.getD "") then
    .rejected 400 (.text "Invalid or missing session ID")
  else .forwarded

/-- DELETE /mcp handler: same guard and responses as the GET handler. -/
def deleteMcp (sessions : List String) (sessionId : Option String) : McpResponse :=
  if !optTruthy sessionId || !sessions.contains (sessionId.getD "") then
    .rejected 400 (.text "Invalid or missing session ID")
  else .forwarded

/-- Does a response carry status 400 with the JSON-RPC error envelope and code
-32000, as claim C8 requires of every verb. -/
def isJsonRpc32000 : McpResponse → Bool
  | .rejected 400 (.jsonRpcError c _) => c == -32000
  | _ => false

/-- Claim C8 as stated is false for the GET (and DELETE) handler: a GET with a
missing session identifier, which cannot be a handshake, is rejected with
status 400 but with a plain-text body, not a JSON-RPC error envelope; the POST
handler is the one that answers with the envelope. -/
theorem session_reject_envelope_counterexample :
    getMcp [] none = .rejected 400 (.text "Invalid or missing session ID") ∧
    isJsonRpc32000 (getMcp [] none) = false ∧
    deleteMcp [] none = .rejected 400 (.text "Invalid or missing session ID") ∧
    isJsonRpc32000 (postMcp [] none false) = true :=
  ⟨rfl, rfl, rfl, rfl⟩

/-- Claim C8 (amended): a POST to the protocol endpoint whose session
identifier is missing or unknown and which is not an initialize request is
rejected with status 400 and the JSON-RPC error envelope with code -32000,
while GET and DELETE requests with a missing or unknown session identifier are
rejected with status 400 and a plain-text body. -/
theorem session_reject_amended (sessions : List String) (sid : Option String)
    (isInit : Bool)
    (hbad : ¬ (optTruthy sid = true ∧ sessions.contains (sid.getD "") = true)) :
    (¬ (optTruthy sid = false ∧ isInit = true) →
      postMcp sessions sid isInit =
        .rejected 400 (.jsonRpcError (-32000) "Bad Request: No valid session ID")) ∧
    getMcp sessions sid = .rejected 400 (.text "Invalid or missing session ID") ∧
    deleteMcp sessions sid = .rejected 400 (.text "Invalid or missing session ID") := by
  refine ⟨?_, ?_, ?_⟩
  · intro hinit
    cases ho : optTruthy sid <;> cases hcon : sessions.contains (sid.getD "") <;>
      cases hi : isInit <;> simp_all [postMcp]
  · cases ho : optTruthy sid <;> cases hcon : sessions.contains (sid.getD "") <;>
      simp_all [getMcp]
  · cases ho : optTruthy sid <;> cases hcon : sessions.contains (sid.getD "") <;>
      simp_all [deleteMcp]

theorem session_reject_amended_witness :
    postMcp ["abc"] (some "zzz") false =
      .rejected 400 (.jsonRpcError (-32000) "Bad Request: No valid session ID") :=
  (session_reject_amended ["abc"] (some "zzz") false (by decide)).1 (by decide)

/-- HSL triple as returned by the colord library for a valid CSS color
expression: hue in degrees, saturation and lightness in percent. Modelled from
the spec: the parsing of named colors, hex, rgb(), rgba(), hsl() and hsla()
expressions is performed by the external colord dependency, which is not part
of this repository; for a valid expression its toHsl result carries h in
[0, 360], s and l in [0, 100], and an invalid expression is reported through
the isValid flag rather than an exception. -/
structure Hsl where
  h : ℚ
  s : ℚ
  l : ℚ
deriving DecidableEq

/-- Native color triple of the bridge. -/
structure NativeColor where
  hue : ℤ
  sat : ℤ
  bri : ℤ
deriving DecidableEq

/-- Math.round of JS on a rational: the floor of q + 1/2. -/
def jsRound (q : ℚ) : ℤ := ⌊q + 1 / 2⌋

/-- parseColor from the index.ts revision with CSS color tools: null (none)
when colord reports the expression invalid, otherwise the rounded conversion
of the HSL triple into native ranges, with brightness floored at 1. -/
def parseColor (c : Option Hsl) : Option NativeColor :=
  match c with
  | none => none
  | some x =>
    some ⟨jsRound (x.h / 360 * 65535), jsRound (x.s / 100 * 254),
      max 1 (jsRound (x.l / 100 * 254))⟩

theorem jsRound_nonneg {q : ℚ} (h : 0 ≤ q) : 0 ≤ jsRound q :=
  Int.le_floor.mpr (by push_cast; linarith)

theorem jsRound_le_of_le {q : ℚ} {n : ℤ} (h : q ≤ (n : ℚ)) : jsRound q ≤ n := by
  have h2 : jsRound q < n + 1 := Int.floor_lt.mpr (by push_cast; linarith)
  omega

/-- Claim C3: the color conversion utility maps every valid web color
expression (whose parsed HSL triple lies in the library ranges) to hue in
[0, 65535], saturation in [0, 254] and brightness in [1, 254], and signals an
invalid expression by returning none instead of throwing. -/
theorem parse_color_ranges (c : Option Hsl) :
    (c = none → parseColor c = none) ∧
    (∀ x, c = some x → 0 ≤ x.h → x.h ≤ 360 → 0 ≤ x.s → x.s ≤ 100 → 0 ≤ x.l → x.l ≤ 100 →
      ∃ n, parseColor c = some n ∧ 0 ≤ n.hue ∧ n.hue ≤ 65535 ∧
        0 ≤ n.sat ∧ n.sat ≤ 254 ∧ 1 ≤ n.bri ∧ n.bri ≤ 254) := by
  constructor
  · intro h; subst h; rfl
  · intro x hc h0 h360 hs0 hs100 hl0 hl100
    subst hc
    refine ⟨_, rfl, ?_, ?_, ?_, ?_, ?_, ?_⟩
    · exact jsRound_nonneg (by positivity)
    · exact jsRound_le_of_le (by push_cast; linarith)
    · exact jsRound_nonneg (by positivity)
    · exact jsRound_le_of_le (by push_cast; linarith)
    · exact le_max_left 1 _
    · exact max_le (by norm_num) (jsRound_le_of_le (by push_cast; linarith))

theorem parse_color_ranges_witness :
    ∃ n, parseColor (some ⟨0, 100, 50⟩) = some n ∧ 0 ≤ n.hue ∧ n.hue ≤ 65535 ∧
      0 ≤ n.sat ∧ n.sat ≤ 254 ∧ 1 ≤ n.bri ∧ n.bri ≤ 254 :=
  (parse_color_ranges (some ⟨0, 100, 50⟩)).2 ⟨0, 100, 50⟩ rfl (by norm_num) (by norm_num)
    (by norm_num) (by norm_num) (by norm_num) (by norm_num)

end HueMcp
